import Mathlib

/-!
Verification of the wipi-web-api netlink core against its specification.

The Rust sources are shallowly embedded: each Rust function that a claim
references is translated into an executable Lean definition over explicit
inputs (kernel message streams become input lists, kernel mutation calls
become request values in the output).  The repository contains several
revisions of the netlink module side by side; each definition below names
the file it was translated from.
-/

set_option autoImplicit false

namespace Wipi

/-! ## Association lists modelling std::collections::HashMap

Rust HashMap iteration order is unspecified, so a HashMap is modelled as an
association list whose insert replaces in place when the key is present and
appends otherwise.  All claims about merged maps are stated through lookups,
which agree with HashMap semantics. -/

/-- HashMap::insert modelled on an association list: replace in place when
the key exists, append otherwise. -/
def insertAssoc {α β : Type} [DecidableEq α] : List (α × β) → α → β → List (α × β)
  | [], k, v => [(k, v)]
  | (k', v') :: rest, k, v =>
    if k' = k then (k, v) :: rest else (k', v') :: insertAssoc rest k v

/-- HashMap::get modelled on an association list. -/
def lookupAssoc {α β : Type} [DecidableEq α] : List (α × β) → α → Option β
  | [], _ => none
  | (k', v') :: rest, k => if k' = k then some v' else lookupAssoc rest k

/-! ## Addresses

std::net::IpAddr is modelled as the v4/v6 sum over raw address bits.
macaddr::MacAddr is modelled by its byte list; parsing the hex string that
`get_neighbor_mac_addresses` builds (two hex digits per byte, colon joined)
succeeds exactly when the byte count is 6 (MacAddr6) or 8 (MacAddr8). -/

inductive IpAddr : Type where
  | v4 (bits : Nat)
  | v6 (bits : Nat)
deriving DecidableEq, Repr

/-- IpAddr::is_loopback: first octet 127 for v4, the address ::1 for v6. -/
def IpAddr.isLoopback : IpAddr → Bool
  | .v4 bits => bits >>> 24 = 127
  | .v6 bits => bits = 1

/-- A link-layer address as its byte list. -/
abbrev MacAddr := List Nat

/-- MacAddr::from_str applied to the colon-joined hex rendering of `bytes`:
succeeds exactly for 6-byte and 8-byte addresses. -/
def macAddrFromBytes (bytes : List Nat) : Option MacAddr :=
  if bytes.length = 6 ∨ bytes.length = 8 then some bytes else none

/-! ## src/service/netlink/route.rs -/

inductive OperState : Type where
  | unknown
  | down
  | up
  | other (code : Nat)
deriving DecidableEq, Repr

inductive RouteInterfaceKind : Type where
  | ethernet
  | wireless
  | loopback
  | unknown (code : Nat)
deriving DecidableEq, Repr

/-- RouteInterface as declared in route.rs (the revision carrying oper_state). -/
structure RouteInterface : Type where
  index : Nat
  name : String
  kind : RouteInterfaceKind
  operState : OperState
deriving DecidableEq, Repr

/-- One kernel mutation request issued through rtnetlink link().set. -/
inductive LinkRequest : Type where
  | setLinkDown (index : Nat)
  | setLinkUp (index : Nat)
deriving DecidableEq, Repr

def LinkRequest.index : LinkRequest → Nat
  | .setLinkDown i => i
  | .setLinkUp i => i

/-- RouteManager::set_link_oper_state: for Down and Up it builds and executes
one request addressed by the interface index; every other target returns an
error before any request is built.  The ok value is the list of kernel
requests issued. -/
def setLinkOperState (routeInterface : RouteInterface) (state : OperState) :
    Except String (List LinkRequest) :=
  match state with
  | .down => .ok [LinkRequest.setLinkDown routeInterface.index]
  | .up => .ok [LinkRequest.setLinkUp routeInterface.index]
  | _ => .error "Invalid interface operational state specified"

inductive NeighbourAddress : Type where
  | inet (bits : Nat)
  | inet6 (bits : Nat)
deriving DecidableEq, Repr

inductive NeighbourAttribute : Type where
  | destination (address : NeighbourAddress)
  | linkLocalAddress (bytes : List Nat)
  | otherAttribute
deriving DecidableEq, Repr

/-- One neighbour record of the rtnetlink neighbour stream. -/
structure NeighbourMessage : Type where
  attributes : List NeighbourAttribute
deriving DecidableEq, Repr

/-- The attribute loop of get_neighbor_mac_addresses for one record: each
Destination attribute overwrites the pending IP, each LinkLocalAddress
attribute overwrites the pending MAC with its parse result. -/
def neighbourFields (msg : NeighbourMessage) : Option IpAddr × Option MacAddr :=
  msg.attributes.foldl
    (fun acc attr =>
      match attr with
      | .destination (.inet bits) => (some (IpAddr.v4 bits), acc.2)
      | .destination (.inet6 bits) => (some (IpAddr.v6 bits), acc.2)
      | .linkLocalAddress bytes => (acc.1, macAddrFromBytes bytes)
      | .otherAttribute => acc)
    (none, none)

/-- A record is retained exactly when both fields were extracted. -/
def retainedNeighbour (msg : NeighbourMessage) : Option (IpAddr × MacAddr) :=
  match neighbourFields msg with
  | (some ip, some mac) => some (ip, mac)
  | _ => none

/-- RouteManager::get_neighbor_mac_addresses over a given record stream:
records lacking an IP or a MAC are skipped, the rest are inserted into the
map in stream order. -/
def getNeighborMacAddresses (records : List NeighbourMessage) :
    List (IpAddr × MacAddr) :=
  records.foldl
    (fun addressMap msg =>
      match neighbourFields msg with
      | (some ip, some mac) => insertAssoc addressMap ip mac
      | _ => addressMap)
    []

/-! ## src/service/netlink/wiphy.rs

wl_nl80211 mode types: the variants this system does not model are
represented by their raw kernel codes, exactly the codes the conversion
functions in mod.rs and interface.rs preserve. -/

inductive Nl80211IfMode : Type where
  | station
  | monitor
  | ap
  | otherMode (code : Nat)
deriving DecidableEq, Repr

inductive Nl80211InterfaceType : Type where
  | station
  | monitor
  | ap
  | other (code : Nat)
deriving DecidableEq, Repr

structure WiphyInterface : Type where
  index : Nat
  phyIndex : Nat
  name : String
  iftype : Nl80211InterfaceType
deriving DecidableEq, Repr

structure WiphyDevice : Type where
  phyIndex : Nat
  phyName : String
  supportedIftypes : List Nl80211IfMode
deriving DecidableEq, Repr

inductive Nl80211Attr : Type where
  | ifIndex (index : Nat)
  | wiphy (index : Nat)
  | ifName (name : String)
  | ifType (iftype : Nl80211InterfaceType)
  | wiphyName (name : String)
  | supportedIftypes (iftypes : List Nl80211IfMode)
  | otherAttribute
deriving DecidableEq, Repr

/-- One message of an nl80211 response stream. -/
structure Nl80211Message : Type where
  attributes : List Nl80211Attr
deriving DecidableEq, Repr

/-- The attribute loop of get_wiphy_interfaces for one message. -/
def wiphyInterfaceFields (msg : Nl80211Message) :
    Option Nat × Option Nat × Option String × Option Nl80211InterfaceType :=
  msg.attributes.foldl
    (fun acc attr =>
      match attr with
      | .ifIndex i => (some i, acc.2.1, acc.2.2.1, acc.2.2.2)
      | .wiphy i => (acc.1, some i, acc.2.2.1, acc.2.2.2)
      | .ifName s => (acc.1, acc.2.1, some s, acc.2.2.2)
      | .ifType t => (acc.1, acc.2.1, acc.2.2.1, some t)
      | _ => acc)
    (none, none, none, none)

/-- WiphyManager::get_wiphy_interfaces over a given message stream: a message
missing any of index, phy index, name or iftype is skipped. -/
def getWiphyInterfaces (msgs : List Nl80211Message) : List WiphyInterface :=
  msgs.filterMap
    (fun msg =>
      match wiphyInterfaceFields msg with
      | (some index, some phyIndex, some name, some iftype) =>
        some ⟨index, phyIndex, name, iftype⟩
      | _ => none)

/-- The attribute loop of get_wiphy_devices for one message. -/
def wiphyDeviceFields (msg : Nl80211Message) :
    Option Nat × Option String × Option (List Nl80211IfMode) :=
  msg.attributes.foldl
    (fun acc attr =>
      match attr with
      | .wiphy index => (some index, acc.2.1, acc.2.2)
      | .wiphyName name => (acc.1, some name, acc.2.2)
      | .supportedIftypes iftypes => (acc.1, acc.2.1, some iftypes)
      | _ => acc)
    (none, none, none)

/-- The loop body of get_wiphy_devices: a message without a phy index is
skipped; otherwise the device accumulated so far for that phy index (or a
fresh one with empty name and mode list) is updated with exactly the fields
the message carries and stored back.  HashMap remove followed by insert is
modelled as an in-place replace, which has the same lookups. -/
def wiphyDevicesStep (devices : List (Nat × WiphyDevice)) (msg : Nl80211Message) :
    List (Nat × WiphyDevice) :=
  match wiphyDeviceFields msg with
  | (none, _, _) => devices
  | (some phyIndex, phyName, supportedIftypes) =>
    let wiphyDev := (lookupAssoc devices phyIndex).getD ⟨phyIndex, "", []⟩
    let wiphyDev :=
      { wiphyDev with
        phyName := phyName.getD wiphyDev.phyName
        supportedIftypes := supportedIftypes.getD wiphyDev.supportedIftypes }
    insertAssoc devices phyIndex wiphyDev

/-- WiphyManager::get_wiphy_devices as the by-phy-index map. -/
def getWiphyDevicesMap (msgs : List Nl80211Message) : List (Nat × WiphyDevice) :=
  msgs.foldl wiphyDevicesStep []

/-- WiphyManager::get_wiphy_devices over a given message stream
(into_values of the accumulated map). -/
def getWiphyDevices (msgs : List Nl80211Message) : List WiphyDevice :=
  (getWiphyDevicesMap msgs).map Prod.snd

/-- The field contributions the device stream makes to one phy index, in
stream order: for each message carrying that phy index, the optional name
and optional mode-list fields it contributes. -/
def deviceContributions (msgs : List Nl80211Message) (phyIndex : Nat) :
    List (Option String × Option (List Nl80211IfMode)) :=
  msgs.filterMap
    (fun msg =>
      match wiphyDeviceFields msg with
      | (some p, phyName, supportedIftypes) =>
        if p = phyIndex then some (phyName, supportedIftypes) else none
      | (none, _, _) => none)

/-- Field-by-field application of one contribution to the accumulated device
(or to a fresh device when none is accumulated yet). -/
def applyContribution (phyIndex : Nat) (dev : Option WiphyDevice)
    (c : Option String × Option (List Nl80211IfMode)) : WiphyDevice :=
  let d := dev.getD ⟨phyIndex, "", []⟩
  { d with
    phyName := c.1.getD d.phyName
    supportedIftypes := c.2.getD d.supportedIftypes }

/-- One kernel mutation request issued through nl80211 interface().set. -/
inductive Nl80211Request : Type where
  | setInterfaceMode (ifIndex : Nat) (iftype : Nl80211InterfaceType)
deriving DecidableEq, Repr

/-- WiphyManager::set_wiphy_interface_mode: builds the attribute set from the
interface index and the requested iftype and executes it; the returned list
is the kernel requests issued.  No target is rejected here. -/
def setWiphyInterfaceMode (wiphyInterface : WiphyInterface)
    (iftype : Nl80211InterfaceType) : List Nl80211Request :=
  [Nl80211Request.setInterfaceMode wiphyInterface.index iftype]

/-! ## src/service/netlink/interface.rs and mod.rs: interface modes -/

inductive NetlinkInterfaceMode : Type where
  | station
  | monitor
  | accessPoint
  | otherWireless (code : Nat)
deriving DecidableEq, Repr

/-- From Nl80211IfMode for NetlinkInterfaceMode. -/
def NetlinkInterfaceMode.ofIfMode : Nl80211IfMode → NetlinkInterfaceMode
  | .station => .station
  | .monitor => .monitor
  | .ap => .accessPoint
  | .otherMode code => .otherWireless code

/-- From Nl80211InterfaceType for NetlinkInterfaceMode. -/
def NetlinkInterfaceMode.ofInterfaceType : Nl80211InterfaceType → NetlinkInterfaceMode
  | .station => .station
  | .monitor => .monitor
  | .ap => .accessPoint
  | .other code => .otherWireless code

/-- interface.rs TryInto of Nl80211InterfaceType for NetlinkInterfaceMode:
every variant converts successfully; OtherWireless(code) becomes the raw
kernel Other(code).  The error side of the Result is never produced. -/
def NetlinkInterfaceMode.tryIntoInterfaceType :
    NetlinkInterfaceMode → Except String Nl80211InterfaceType
  | .station => .ok .station
  | .monitor => .ok .monitor
  | .accessPoint => .ok .ap
  | .otherWireless code => .ok (.other code)

/-- The mode variants serde can deserialize at the HTTP boundary:
OtherWireless is marked skip_deserializing in interface.rs. -/
def deserializableModes : List NetlinkInterfaceMode :=
  [.station, .monitor, .accessPoint]

/-- The path a mode mutation takes: interface.rs conversion, then
wiphy.rs set_wiphy_interface_mode.  The ok value lists the kernel
requests issued. -/
def setModeRequests (wiphyInterface : WiphyInterface)
    (mode : NetlinkInterfaceMode) : Except String (List Nl80211Request) :=
  (NetlinkInterfaceMode.tryIntoInterfaceType mode).map
    (setWiphyInterfaceMode wiphyInterface)

/-! ## src/service/netlink/mod.rs: merged interface view -/

/-- Modelled from the spec: mod.rs re-exports route::LinkState, but no
revision under src declares it; the spec gives the two link states Up and
Down, the only values NetlinkInterface::state constructs. -/
inductive LinkState : Type where
  | up
  | down
deriving DecidableEq, Repr

/-- The IFF_UP bit of rtnetlink LinkFlags::Up. -/
def LinkFlagsUp : Nat := 1

structure NetlinkInterfaceModeStatus : Type where
  active : NetlinkInterfaceMode
  supported : List NetlinkInterfaceMode
deriving DecidableEq, Repr

/-- NetlinkInterface of mod.rs, the merged record (link_flags held as the
raw bit value). -/
structure NetlinkInterface : Type where
  index : Nat
  name : String
  kind : RouteInterfaceKind
  linkFlags : Nat
  modeStatus : Option NetlinkInterfaceModeStatus
deriving DecidableEq, Repr

/-- NetlinkInterface::state: Up exactly when the Up flag bits are all set,
Down in every other case. -/
def NetlinkInterface.state (self : NetlinkInterface) : LinkState :=
  if self.linkFlags &&& LinkFlagsUp = LinkFlagsUp then LinkState.up else LinkState.down

/-- The route record shape mod.rs get_interfaces consumes: it reads index,
name, kind and link_flags from each record of RouteManager::get_interfaces.
The route.rs revision under src carries oper_state instead of link_flags
(revision drift), so the shape mod.rs reads is declared directly. -/
structure RouteFlagsInterface : Type where
  index : Nat
  name : String
  kind : RouteInterfaceKind
  linkFlags : Nat
deriving DecidableEq, Repr

/-- First step of get_interfaces: collect the wiphy devices into a map from
phy index to the converted supported-mode list. -/
def wiphyDeviceModes (devices : List WiphyDevice) :
    List (Nat × List NetlinkInterfaceMode) :=
  devices.foldl
    (fun m d => insertAssoc m d.phyIndex (d.supportedIftypes.map NetlinkInterfaceMode.ofIfMode))
    []

/-- The entry the wireless pass of get_interfaces inserts for one wiphy
interface: kind is Wireless, link flags start at 0, the mode status carries
the active mode and the device lookup result (empty list with a logged
diagnostic when the phy index is not in the device map). -/
def wirelessEntry (deviceModes : List (Nat × List NetlinkInterfaceMode))
    (iface : WiphyInterface) : NetlinkInterface :=
  { index := iface.index
    name := iface.name
    kind := RouteInterfaceKind.wireless
    linkFlags := 0
    modeStatus := some
      { active := NetlinkInterfaceMode.ofInterfaceType iface.iftype
        supported := (lookupAssoc deviceModes iface.phyIndex).getD [] } }

def wirelessPassStep (deviceModes : List (Nat × List NetlinkInterfaceMode))
    (interfaces : List (String × NetlinkInterface)) (iface : WiphyInterface) :
    List (String × NetlinkInterface) :=
  insertAssoc interfaces iface.name (wirelessEntry deviceModes iface)

/-- The wireless pass of get_interfaces: every wiphy interface is inserted
keyed by name. -/
def wirelessPass (deviceModes : List (Nat × List NetlinkInterfaceMode))
    (wiphyInterfaces : List WiphyInterface) : List (String × NetlinkInterface) :=
  wiphyInterfaces.foldl (wirelessPassStep deviceModes) []

/-- The route pass body of get_interfaces: a record whose name is already in
the map only overwrites that entry's link_flags; otherwise a new entry with
no mode status is inserted. -/
def routePassStep (interfaces : List (String × NetlinkInterface))
    (iface : RouteFlagsInterface) : List (String × NetlinkInterface) :=
  match lookupAssoc interfaces iface.name with
  | some insertedIface =>
    insertAssoc interfaces iface.name { insertedIface with linkFlags := iface.linkFlags }
  | none =>
    insertAssoc interfaces iface.name
      { index := iface.index
        name := iface.name
        kind := iface.kind
        linkFlags := iface.linkFlags
        modeStatus := none }

def routePass (interfaces : List (String × NetlinkInterface))
    (routeInterfaces : List RouteFlagsInterface) : List (String × NetlinkInterface) :=
  routeInterfaces.foldl routePassStep interfaces

/-- NetlinkService::get_interfaces: wiphy devices and wiphy interfaces are
enumerated through WiphyManager, merged in the wireless pass, complemented
by the route pass, and the map values are returned. -/
def getInterfaces (deviceMsgs ifaceMsgs : List Nl80211Message)
    (routeInterfaces : List RouteFlagsInterface) : List NetlinkInterface :=
  (routePass
      (wirelessPass (wiphyDeviceModes (getWiphyDevices deviceMsgs))
        (getWiphyInterfaces ifaceMsgs))
      routeInterfaces).map Prod.snd

/-- NetlinkService::find_interface_by_name: full merge, then linear search. -/
def findInterfaceByName (deviceMsgs ifaceMsgs : List Nl80211Message)
    (routeInterfaces : List RouteFlagsInterface) (name : String) :
    Option NetlinkInterface :=
  (getInterfaces deviceMsgs ifaceMsgs routeInterfaces).find? (fun x => x.name = name)

/-! ## src/error.rs and the api/net handlers -/

/-- Error of error.rs.  The two net handlers additionally reference
Error::InterfaceNotFound, a variant the error.rs revision under src does not
declare (revision drift); it is included here as the handlers use it. -/
inductive Error : Type where
  | unexpectedError
  | routerClientIdentificationFailed
  | sessionCooldown
  | incorrectPassword
  | unauthenticated
  | sessionExpired
  | interfaceNotFound
deriving DecidableEq, Repr

/-- IfState of api/net/ifstate.rs. -/
inductive IfState : Type where
  | down
  | up
deriving DecidableEq, Repr

/-- Into OperState for IfState. -/
def IfState.intoOperState : IfState → OperState
  | .down => OperState.down
  | .up => OperState.up

/-- The interface shape api/net/ifstate.rs reads back: the handler returns
interface.oper_state, a field of the route.rs record revision rather than of
the mod.rs NetlinkInterface (revision drift); the handler is modelled over
the fields it uses. -/
structure StateInterface : Type where
  name : String
  operState : OperState
deriving DecidableEq, Repr

/-- api/net/ifmode.rs post.  The two name resolutions and the mutation call
go through NetlinkService, whose set_interface_mode is not under src; their
outcomes are therefore inputs: findFirst and findSecond are the interfaces
the two find_interface_by_name calls resolve (none for a resolution
failure), setModeOk is whether the mutation call succeeded. -/
def ifmodePost (findFirst : Option NetlinkInterface) (setModeOk : Bool)
    (findSecond : Option NetlinkInterface) : Except Error NetlinkInterfaceMode :=
  match findFirst with
  | none => .error Error.interfaceNotFound
  | some _ =>
    if setModeOk = false then .error Error.unexpectedError
    else
      match findSecond with
      | none => .error Error.unexpectedError
      | some interface =>
        match interface.modeStatus with
        | none => .error Error.unexpectedError
        | some status => .ok status.active

/-- api/net/ifstate.rs post, modelled like ifmodePost (set_interface_oper_state
is not under src; its outcome is the input setStateOk). -/
def ifstatePost (operStateTarget : IfState) (findFirst : Option StateInterface)
    (setStateOk : Bool) (findSecond : Option StateInterface) :
    Except Error OperState :=
  match findFirst with
  | none => .error Error.interfaceNotFound
  | some _ =>
    if setStateOk = false then .error Error.unexpectedError
    else
      match findSecond with
      | none => .error Error.unexpectedError
      | some interface => .ok interface.operState

/-! ## src/extractor/router_client.rs -/

structure RouterClient : Type where
  ipAddress : IpAddr
  macAddress : MacAddr
deriving DecidableEq, Repr

/-- First Destination attribute of a neighbour record (iter().find_map). -/
def firstDestination (msg : NeighbourMessage) : Option IpAddr :=
  msg.attributes.findSome?
    (fun attr =>
      match attr with
      | .destination (.inet bits) => some (IpAddr.v4 bits)
      | .destination (.inet6 bits) => some (IpAddr.v6 bits)
      | _ => none)

/-- First LinkLocalAddress attribute that parses as a MAC (find_map with the
parse inside, so an unparseable attribute is passed over). -/
def firstLinkLocal (msg : NeighbourMessage) : Option MacAddr :=
  msg.attributes.findSome?
    (fun attr =>
      match attr with
      | .linkLocalAddress bytes => macAddrFromBytes bytes
      | _ => none)

/-- The neighbour loop of from_request_parts: the first record whose
destination equals the wanted IP decides the outcome (break), its MAC
attribute or an identification failure; records with no destination are
skipped; exhausting the stream is an identification failure. -/
def scanNeighbours (ipAddress : IpAddr) :
    List NeighbourMessage → Except Error MacAddr
  | [] => .error Error.routerClientIdentificationFailed
  | msg :: rest =>
    match firstDestination msg with
    | none => scanNeighbours ipAddress rest
    | some routeIp =>
      if routeIp = ipAddress then
        match firstLinkLocal msg with
        | some mac => .ok mac
        | none => .error Error.routerClientIdentificationFailed
      else scanNeighbours ipAddress rest

/-- RouterClient::from_request_parts.  connectInfo is the peer socket IP if
the ConnectInfo extension is present; hasNlHandle is whether the rtnetlink
Handle extension is present; xRealIpHeader is the X-Real-IP header
(outer none = header absent, inner none = header present but not an ASCII
IP).  The neighbour stream is the given record list.  The Bool of the result
is whether a neighbour-table query was executed. -/
def fromRequestParts (connectInfo : Option IpAddr) (hasNlHandle : Bool)
    (xRealIpHeader : Option (Option IpAddr)) (records : List NeighbourMessage) :
    Except Error RouterClient × Bool :=
  match connectInfo with
  | none => (.error Error.routerClientIdentificationFailed, false)
  | some socketIp =>
    if hasNlHandle = false then (.error Error.routerClientIdentificationFailed, false)
    else
      match (if socketIp.isLoopback then xRealIpHeader else none) with
      | some none => (.error Error.routerClientIdentificationFailed, false)
      | some (some realIp) =>
        ((scanNeighbours realIp records).map (fun mac => ⟨realIp, mac⟩), true)
      | none =>
        ((scanNeighbours socketIp records).map (fun mac => ⟨socketIp, mac⟩), true)

/-! ## Theorems -/

theorem lookupAssoc_insertAssoc_self {α β : Type} [DecidableEq α]
    (m : List (α × β)) (k : α) (v : β) :
    lookupAssoc (insertAssoc m k v) k = some v := by
  induction m with
  | nil => simp [insertAssoc, lookupAssoc]
  | cons p rest ih =>
    obtain ⟨k', v'⟩ := p
    by_cases h : k' = k
    · simp [insertAssoc, lookupAssoc, h]
    · simp [insertAssoc, lookupAssoc, h, ih]

theorem lookupAssoc_insertAssoc_ne {α β : Type} [DecidableEq α]
    (m : List (α × β)) (k k₀ : α) (v : β) (hne : k₀ ≠ k) :
    lookupAssoc (insertAssoc m k v) k₀ = lookupAssoc m k₀ := by
  have hkk : k ≠ k₀ := Ne.symm hne
  induction m with
  | nil => simp [insertAssoc, lookupAssoc, hkk]
  | cons p rest ih =>
    obtain ⟨k', v'⟩ := p
    by_cases h : k' = k
    · subst h
      simp [insertAssoc, lookupAssoc, hkk]
    · by_cases h0 : k' = k₀ <;> simp [insertAssoc, lookupAssoc, h, h0, hne, ih]

theorem mem_insertAssoc {α β : Type} [DecidableEq α]
    (m : List (α × β)) (k : α) (v : β) (p : α × β)
    (hp : p ∈ insertAssoc m k v) : p ∈ m ∨ p = (k, v) := by
  induction m with
  | nil => simpa [insertAssoc] using hp
  | cons q rest ih =>
    obtain ⟨k', v'⟩ := q
    by_cases h : k' = k
    · simp only [insertAssoc, if_pos h, List.mem_cons] at hp
      rcases hp with h1 | h1
      · right; exact h1
      · left; exact List.mem_cons_of_mem _ h1
    · simp only [insertAssoc, if_neg h, List.mem_cons] at hp
      rcases hp with h1 | h1
      · left; simp [h1]
      · rcases ih h1 with h2 | h2
        · left; exact List.mem_cons_of_mem _ h2
        · right; exact h2

theorem keys_insertAssoc_nodup {α β : Type} [DecidableEq α]
    (m : List (α × β)) (k : α) (v : β)
    (hm : (m.map Prod.fst).Nodup) :
    ((insertAssoc m k v).map Prod.fst).Nodup := by
  induction m with
  | nil => simp [insertAssoc]
  | cons p rest ih =>
    obtain ⟨k', v'⟩ := p
    rw [List.map_cons, List.nodup_cons] at hm
    by_cases h : k' = k
    · subst h
      rw [insertAssoc, if_pos rfl, List.map_cons, List.nodup_cons]
      exact hm
    · rw [insertAssoc, if_neg h, List.map_cons, List.nodup_cons]
      refine ⟨?_, ih hm.2⟩
      intro hmem
      rcases List.mem_map.mp hmem with ⟨q, hq, hq'⟩
      rcases mem_insertAssoc rest k v q hq with h1 | h1
      · exact hm.1 (List.mem_map.mpr ⟨q, h1, hq'⟩)
      · rw [h1] at hq'
        exact h hq'.symm

theorem lookupAssoc_mem {α β : Type} [DecidableEq α]
    (m : List (α × β)) (k : α) (v : β)
    (h : lookupAssoc m k = some v) : (k, v) ∈ m := by
  induction m with
  | nil => simp [lookupAssoc] at h
  | cons p rest ih =>
    obtain ⟨k', v'⟩ := p
    by_cases hk : k' = k
    · subst hk
      rw [lookupAssoc, if_pos rfl] at h
      injection h with h
      subst h
      exact List.mem_cons_self _ _
    · rw [lookupAssoc, if_neg hk] at h
      exact List.mem_cons_of_mem _ (ih h)

theorem lookupAssoc_eq_none_of_not_mem_keys {α β : Type} [DecidableEq α]
    (m : List (α × β)) (k : α) (h : k ∉ m.map Prod.fst) :
    lookupAssoc m k = none := by
  induction m with
  | nil => rfl
  | cons p rest ih =>
    obtain ⟨k', v'⟩ := p
    simp only [List.map_cons, List.mem_cons] at h
    push_neg at h
    have h1 : ¬ k' = k := fun hh => h.1 hh.symm
    simp [lookupAssoc, h1, ih h.2]

/-- Folding HashMap inserts over a pair list: the lookup of the result is the
value of the last pair with the wanted key, falling back to the initial map. -/
theorem lookupAssoc_foldl_insertAssoc {α β : Type} [DecidableEq α]
    (ps : List (α × β)) (init : List (α × β)) (k : α) :
    lookupAssoc (ps.foldl (fun m p => insertAssoc m p.1 p.2) init) k =
      match ps.reverse.find? (fun p => p.1 = k) with
      | some p => some p.2
      | none => lookupAssoc init k := by
  induction ps generalizing init with
  | nil => simp
  | cons p tl ih =>
    obtain ⟨k', v'⟩ := p
    simp only [List.foldl_cons, List.reverse_cons, List.find?_append]
    rw [ih]
    cases hfind : tl.reverse.find? (fun p => p.1 = k) with
    | some q => simp [hfind]
    | none =>
      by_cases hk : k' = k
      · subst hk
        simp [hfind, List.find?, lookupAssoc_insertAssoc_self]
      · simp [hfind, List.find?, hk, lookupAssoc_insertAssoc_ne _ _ _ _ (Ne.symm hk)]

theorem getNeighborMacAddresses_eq_foldl_retained (records : List NeighbourMessage)
    (init : List (IpAddr × MacAddr)) :
    records.foldl
        (fun addressMap msg =>
          match neighbourFields msg with
          | (some ip, some mac) => insertAssoc addressMap ip mac
          | _ => addressMap)
        init =
      (records.filterMap retainedNeighbour).foldl
        (fun m p => insertAssoc m p.1 p.2) init := by
  induction records generalizing init with
  | nil => rfl
  | cons msg tl ih =>
    simp only [List.foldl_cons, List.filterMap_cons]
    cases hf : neighbourFields msg with
    | mk oip omac =>
      cases oip with
      | none => simpa [retainedNeighbour, hf] using ih _
      | some ip =>
        cases omac with
        | none => simpa [retainedNeighbour, hf] using ih _
        | some mac => simpa [retainedNeighbour, hf] using ih _

theorem mem_foldl_insertAssoc {α β : Type} [DecidableEq α]
    (ps : List (α × β)) (init : List (α × β)) (p : α × β)
    (hp : p ∈ ps.foldl (fun m q => insertAssoc m q.1 q.2) init) :
    p ∈ init ∨ p ∈ ps := by
  induction ps generalizing init with
  | nil => exact Or.inl hp
  | cons q tl ih =>
    simp only [List.foldl_cons] at hp
    rcases ih _ hp with h1 | h1
    · rcases mem_insertAssoc init q.1 q.2 p h1 with h2 | h2
      · exact Or.inl h2
      · right
        rw [h2]
        exact List.mem_cons_self _ _
    · exact Or.inr (List.mem_cons_of_mem _ h1)

/-- C6: setLinkOperState rejects every target other than Up and Down with an
invalid-input error before any kernel request is issued, and for targets Up
and Down it issues exactly one kernel mutation request addressed by the
interface index. -/
theorem c6_setLinkOperState_target_guard :
    ∀ (routeInterface : RouteInterface),
      setLinkOperState routeInterface OperState.unknown =
        .error "Invalid interface operational state specified" ∧
      (∀ code, setLinkOperState routeInterface (OperState.other code) =
        .error "Invalid interface operational state specified") ∧
      setLinkOperState routeInterface OperState.up =
        .ok [LinkRequest.setLinkUp routeInterface.index] ∧
      setLinkOperState routeInterface OperState.down =
        .ok [LinkRequest.setLinkDown routeInterface.index] ∧
      (∀ state requests, setLinkOperState routeInterface state = .ok requests →
        requests.length = 1 ∧ ∀ r ∈ requests, r.index = routeInterface.index) := by
  intro routeInterface
  refine ⟨rfl, fun code => rfl, rfl, rfl, ?_⟩
  intro state requests h
  cases state with
  | unknown => exact absurd h (by simp [setLinkOperState])
  | other code => exact absurd h (by simp [setLinkOperState])
  | up =>
    simp only [setLinkOperState] at h
    injection h with h
    subst h
    refine ⟨rfl, ?_⟩
    intro r hr
    rw [List.mem_singleton] at hr
    subst hr
    rfl
  | down =>
    simp only [setLinkOperState] at h
    injection h with h
    subst h
    refine ⟨rfl, ?_⟩
    intro r hr
    rw [List.mem_singleton] at hr
    subst hr
    rfl

/-- Witness for c6_setLinkOperState_target_guard at interface index 2 and
target Up: exactly one request, addressed by index 2. -/
theorem c6_setLinkOperState_target_guard_witness :
    setLinkOperState ⟨2, "eth0", RouteInterfaceKind.ethernet, OperState.up⟩
        OperState.up = .ok [LinkRequest.setLinkUp 2] ∧
    [LinkRequest.setLinkUp 2].length = 1 ∧
    ∀ r ∈ [LinkRequest.setLinkUp 2], r.index = 2 := by
  have h := c6_setLinkOperState_target_guard
    ⟨2, "eth0", RouteInterfaceKind.ethernet, OperState.up⟩
  exact ⟨h.2.2.1, h.2.2.2.2 OperState.up [LinkRequest.setLinkUp 2] h.2.2.1⟩

/-- C9: the neighbour map contains exactly the records from which both a
destination IP and a parseable link-layer MAC were extracted, and the lookup
of any IP is the MAC of the last such record carrying that IP (last writer
wins); a record lacking either field contributes nothing. -/
theorem c9_getNeighborMacAddresses_retained_last_writer :
    ∀ (records : List NeighbourMessage) (ip : IpAddr),
      lookupAssoc (getNeighborMacAddresses records) ip =
        ((records.filterMap retainedNeighbour).reverse.find?
            (fun p => p.1 = ip)).map Prod.snd ∧
      (∀ p ∈ getNeighborMacAddresses records,
        ∃ msg ∈ records, retainedNeighbour msg = some p) := by
  intro records ip
  constructor
  · rw [getNeighborMacAddresses, getNeighborMacAddresses_eq_foldl_retained,
      lookupAssoc_foldl_insertAssoc]
    cases h : (records.filterMap retainedNeighbour).reverse.find? (fun p => p.1 = ip) <;>
      simp [h, lookupAssoc]
  · intro p hp
    rw [getNeighborMacAddresses, getNeighborMacAddresses_eq_foldl_retained] at hp
    rcases mem_foldl_insertAssoc _ _ _ hp with h | h
    · simp at h
    · rcases List.mem_filterMap.mp h with ⟨msg, hmsg, hret⟩
      exact ⟨msg, hmsg, hret⟩

/-- Witness for c9_getNeighborMacAddresses_retained_last_writer: two retained
records share one IP (the second wins) and a MAC-less record is dropped. -/
theorem c9_getNeighborMacAddresses_retained_last_writer_witness :
    lookupAssoc
        (getNeighborMacAddresses
          [⟨[.destination (.inet 3232235777), .linkLocalAddress [1, 2, 3, 4, 5, 6]]⟩,
           ⟨[.destination (.inet 3232235777), .linkLocalAddress [9, 9, 9, 9, 9, 9]]⟩,
           ⟨[.destination (.inet 167772161)]⟩])
        (IpAddr.v4 3232235777) = some [9, 9, 9, 9, 9, 9] ∧
    ∃ msg ∈
        [(⟨[.destination (.inet 3232235777), .linkLocalAddress [1, 2, 3, 4, 5, 6]]⟩ : NeighbourMessage),
         ⟨[.destination (.inet 3232235777), .linkLocalAddress [9, 9, 9, 9, 9, 9]]⟩,
         ⟨[.destination (.inet 167772161)]⟩],
      retainedNeighbour msg = some (IpAddr.v4 3232235777, [9, 9, 9, 9, 9, 9]) := by
  have h := c9_getNeighborMacAddresses_retained_last_writer
    [⟨[.destination (.inet 3232235777), .linkLocalAddress [1, 2, 3, 4, 5, 6]]⟩,
     ⟨[.destination (.inet 3232235777), .linkLocalAddress [9, 9, 9, 9, 9, 9]]⟩,
     ⟨[.destination (.inet 167772161)]⟩]
    (IpAddr.v4 3232235777)
  have hl : lookupAssoc
      (getNeighborMacAddresses
        [⟨[.destination (.inet 3232235777), .linkLocalAddress [1, 2, 3, 4, 5, 6]]⟩,
         ⟨[.destination (.inet 3232235777), .linkLocalAddress [9, 9, 9, 9, 9, 9]]⟩,
         ⟨[.destination (.inet 167772161)]⟩])
      (IpAddr.v4 3232235777) = some [9, 9, 9, 9, 9, 9] := by
    rw [h.1]
    rfl
  exact ⟨hl, h.2 _ (lookupAssoc_mem _ _ _ hl)⟩

/-- C3: in both state-changing handlers, after a successful mutation call the
interface is re-resolved and its freshly observed state is the result; a
missing expected field after re-resolution (a second resolution failure, or
an interface without a mode status in ifmode) is an unexpected error, never
a reported success. -/
theorem c3_set_then_confirm :
    ∀ (i₁ i₂ : NetlinkInterface) (s₁ s₂ : StateInterface) (target : IfState)
      (status : NetlinkInterfaceModeStatus),
      (i₂.modeStatus = some status →
        ifmodePost (some i₁) true (some i₂) = .ok status.active) ∧
      (i₂.modeStatus = none →
        ifmodePost (some i₁) true (some i₂) = .error Error.unexpectedError) ∧
      ifmodePost (some i₁) true none = .error Error.unexpectedError ∧
      ifstatePost target (some s₁) true (some s₂) = .ok s₂.operState ∧
      ifstatePost target (some s₁) true none = .error Error.unexpectedError := by
  intro i₁ i₂ s₁ s₂ target status
  refine ⟨?_, ?_, rfl, rfl, rfl⟩
  · intro h
    simp [ifmodePost, h]
  · intro h
    simp [ifmodePost, h]

/-- Witness for c3_set_then_confirm: for a concrete wireless interface whose
re-resolution carries the active mode Monitor, the mode handler reports
exactly that fresh mode. -/
theorem c3_set_then_confirm_witness :
    ifmodePost
        (some ⟨3, "wlan0", RouteInterfaceKind.wireless, 1,
          some ⟨NetlinkInterfaceMode.station, [NetlinkInterfaceMode.station]⟩⟩)
        true
        (some ⟨3, "wlan0", RouteInterfaceKind.wireless, 1,
          some ⟨NetlinkInterfaceMode.monitor, [NetlinkInterfaceMode.station]⟩⟩) =
      .ok NetlinkInterfaceMode.monitor ∧
    ifstatePost IfState.up (some ⟨"eth0", OperState.down⟩) true
        (some ⟨"eth0", OperState.up⟩) = .ok OperState.up := by
  have h := c3_set_then_confirm
    ⟨3, "wlan0", RouteInterfaceKind.wireless, 1,
      some ⟨NetlinkInterfaceMode.station, [NetlinkInterfaceMode.station]⟩⟩
    ⟨3, "wlan0", RouteInterfaceKind.wireless, 1,
      some ⟨NetlinkInterfaceMode.monitor, [NetlinkInterfaceMode.station]⟩⟩
    ⟨"eth0", OperState.down⟩ ⟨"eth0", OperState.up⟩ IfState.up
    ⟨NetlinkInterfaceMode.monitor, [NetlinkInterfaceMode.station]⟩
  exact ⟨h.1 rfl, h.2.2.2.1⟩

/-- Counterexample to C5: a mode-change request with target OtherWireless(5)
is not rejected: the conversion succeeds with the raw kernel type Other(5)
and a kernel call addressed by the interface index is issued. -/
theorem c5_counterexample_otherWireless_not_rejected :
    NetlinkInterfaceMode.tryIntoInterfaceType (NetlinkInterfaceMode.otherWireless 5) =
      .ok (Nl80211InterfaceType.other 5) ∧
    setModeRequests ⟨3, 0, "wlan0", Nl80211InterfaceType.station⟩
        (NetlinkInterfaceMode.otherWireless 5) =
      .ok [Nl80211Request.setInterfaceMode 3 (Nl80211InterfaceType.other 5)] := by
  exact ⟨rfl, rfl⟩

/-- C5 amended: set_wiphy_interface_mode rejects no target: every mode,
OtherWireless(code) included, converts (OtherWireless to the raw kernel
Other) and exactly one kernel call addressed by the interface index is
issued; OtherWireless is instead excluded at the HTTP deserialization
boundary (serde skip_deserializing). -/
theorem c5_amended_all_modes_issue_one_request :
    (∀ code, NetlinkInterfaceMode.otherWireless code ∉ deserializableModes) ∧
    ∀ (wiphyInterface : WiphyInterface) (mode : NetlinkInterfaceMode),
      ∃ t, NetlinkInterfaceMode.tryIntoInterfaceType mode = .ok t ∧
        setModeRequests wiphyInterface mode =
          .ok [Nl80211Request.setInterfaceMode wiphyInterface.index t] := by
  constructor
  · intro code hmem
    simp [deserializableModes] at hmem
  · intro wiphyInterface mode
    cases mode <;>
      exact ⟨_, rfl, rfl⟩

/-- Witness for c5_amended_all_modes_issue_one_request: at interface index 3
and target OtherWireless(7) one kernel request with the raw type Other(7) is
issued, and OtherWireless(7) is not deserializable. -/
theorem c5_amended_all_modes_issue_one_request_witness :
    NetlinkInterfaceMode.otherWireless 7 ∉ deserializableModes ∧
    ∃ t, NetlinkInterfaceMode.tryIntoInterfaceType (NetlinkInterfaceMode.otherWireless 7) =
        .ok t ∧
      setModeRequests ⟨3, 0, "wlan0", Nl80211InterfaceType.station⟩
          (NetlinkInterfaceMode.otherWireless 7) =
        .ok [Nl80211Request.setInterfaceMode 3 t] := by
  exact ⟨c5_amended_all_modes_issue_one_request.1 7,
    c5_amended_all_modes_issue_one_request.2
      ⟨3, 0, "wlan0", Nl80211InterfaceType.station⟩
      (NetlinkInterfaceMode.otherWireless 7)⟩

/-- Counterexample to C4: for a loopback caller (127.0.0.1) with no reverse
proxy header, resolution performs a neighbour-table query (flag true) and
fails with an identification error; no fixed null MAC is returned. -/
theorem c4_counterexample_loopback_queries_and_fails :
    (IpAddr.v4 2130706433).isLoopback = true ∧
    fromRequestParts (some (IpAddr.v4 2130706433)) true none [] =
      (.error Error.routerClientIdentificationFailed, true) := by
  exact ⟨rfl, rfl⟩

/-- C4 amended: there is no loopback null-MAC special case.  For a loopback
caller the X-Real-IP header value, when present, replaces the caller IP;
with or without the header a neighbour-table query is always performed, and
any IP absent from the neighbour records (loopback included) fails with an
identification error, never a defaulted MAC. -/
theorem c4_amended_loopback_proxies_then_scans :
    ∀ (socketIp : IpAddr) (records : List NeighbourMessage),
      (socketIp.isLoopback = true →
        fromRequestParts (some socketIp) true none records =
          ((scanNeighbours socketIp records).map (fun mac => ⟨socketIp, mac⟩), true)) ∧
      (∀ realIp, socketIp.isLoopback = true →
        fromRequestParts (some socketIp) true (some (some realIp)) records =
          ((scanNeighbours realIp records).map (fun mac => ⟨realIp, mac⟩), true)) ∧
      (∀ xRealIpHeader, socketIp.isLoopback = false →
        fromRequestParts (some socketIp) true xRealIpHeader records =
          ((scanNeighbours socketIp records).map (fun mac => ⟨socketIp, mac⟩), true)) ∧
      (∀ ip, (∀ msg ∈ records, firstDestination msg ≠ some ip) →
        scanNeighbours ip records = .error Error.routerClientIdentificationFailed) := by
  intro socketIp records
  refine ⟨?_, ?_, ?_, ?_⟩
  · intro h
    simp [fromRequestParts, h]
  · intro realIp h
    simp [fromRequestParts, h]
  · intro xRealIpHeader h
    simp [fromRequestParts, h]
  · intro ip habsent
    induction records with
    | nil => rfl
    | cons msg rest ih =>
      have hmsg := habsent msg (List.mem_cons_self _ _)
      have hrest : ∀ m ∈ rest, firstDestination m ≠ some ip :=
        fun m hm => habsent m (List.mem_cons_of_mem _ hm)
      cases hdest : firstDestination msg with
      | none => simp [scanNeighbours, hdest, ih hrest]
      | some routeIp =>
        have hne : ¬ routeIp = ip := by
          intro hEq
          rw [hEq] at hdest
          exact hmsg hdest
        simp [scanNeighbours, hdest, hne, ih hrest]

/-- Witness for c4_amended_loopback_proxies_then_scans: a loopback caller
with a proxy header resolving to 192.168.1.1 is looked up in the neighbour
records under the header IP, and an IP absent from the records fails. -/
theorem c4_amended_loopback_proxies_then_scans_witness :
    fromRequestParts (some (IpAddr.v4 2130706433)) true
        (some (some (IpAddr.v4 3232235777)))
        [⟨[.destination (.inet 3232235777), .linkLocalAddress [1, 2, 3, 4, 5, 6]]⟩] =
      (.ok ⟨IpAddr.v4 3232235777, [1, 2, 3, 4, 5, 6]⟩, true) ∧
    scanNeighbours (IpAddr.v4 167772161)
        [⟨[.destination (.inet 3232235777), .linkLocalAddress [1, 2, 3, 4, 5, 6]]⟩] =
      .error Error.routerClientIdentificationFailed := by
  have h := c4_amended_loopback_proxies_then_scans (IpAddr.v4 2130706433)
    [⟨[.destination (.inet 3232235777), .linkLocalAddress [1, 2, 3, 4, 5, 6]]⟩]
  constructor
  · rw [h.2.1 (IpAddr.v4 3232235777) rfl]
    rfl
  · exact h.2.2.2 (IpAddr.v4 167772161) (by decide)

theorem mem_wirelessPass_aux (deviceModes : List (Nat × List NetlinkInterfaceMode))
    (wiphyInterfaces : List WiphyInterface) :
    ∀ (init : List (String × NetlinkInterface)) (p : String × NetlinkInterface),
      p ∈ wiphyInterfaces.foldl (wirelessPassStep deviceModes) init →
      p ∈ init ∨ ∃ wi ∈ wiphyInterfaces, p = (wi.name, wirelessEntry deviceModes wi) := by
  induction wiphyInterfaces with
  | nil => exact fun init p hp => Or.inl hp
  | cons wi tl ih =>
    intro init p hp
    rw [List.foldl_cons] at hp
    rcases ih _ p hp with h | h
    · rcases mem_insertAssoc _ _ _ _ h with h1 | h1
      · exact Or.inl h1
      · exact Or.inr ⟨wi, List.mem_cons_self _ _, h1⟩
    · rcases h with ⟨wi', hwi', hp'⟩
      exact Or.inr ⟨wi', List.mem_cons_of_mem _ hwi', hp'⟩

/-- Every entry of the wireless pass is the wireless entry of one of the
wiphy interfaces, keyed by its name. -/
theorem mem_wirelessPass (deviceModes : List (Nat × List NetlinkInterfaceMode))
    (wiphyInterfaces : List WiphyInterface) (p : String × NetlinkInterface)
    (hp : p ∈ wirelessPass deviceModes wiphyInterfaces) :
    ∃ wi ∈ wiphyInterfaces, p = (wi.name, wirelessEntry deviceModes wi) := by
  rcases mem_wirelessPass_aux deviceModes wiphyInterfaces [] p hp with h | h
  · simp at h
  · exact h

theorem lookupAssoc_routePassStep_ne (interfaces : List (String × NetlinkInterface))
    (iface : RouteFlagsInterface) (name : String) (hne : iface.name ≠ name) :
    lookupAssoc (routePassStep interfaces iface) name = lookupAssoc interfaces name := by
  have hne' : name ≠ iface.name := Ne.symm hne
  unfold routePassStep
  cases hl : lookupAssoc interfaces iface.name <;>
    simp [lookupAssoc_insertAssoc_ne _ _ _ _ hne']

/-- The route pass only complements link flags of an already-present entry:
kind, mode status, index and name survive. -/
theorem routePass_preserves (routeInterfaces : List RouteFlagsInterface) :
    ∀ (interfaces : List (String × NetlinkInterface)) (name : String)
      (e : NetlinkInterface),
      lookupAssoc interfaces name = some e →
      ∃ e', lookupAssoc (routePass interfaces routeInterfaces) name = some e' ∧
        e'.kind = e.kind ∧ e'.modeStatus = e.modeStatus ∧
        e'.index = e.index ∧ e'.name = e.name := by
  induction routeInterfaces with
  | nil => exact fun interfaces name e h => ⟨e, h, rfl, rfl, rfl, rfl⟩
  | cons rif tl ih =>
    intro interfaces name e h
    rw [routePass, List.foldl_cons]
    by_cases hn : rif.name = name
    · have hstep : routePassStep interfaces rif =
          insertAssoc interfaces rif.name { e with linkFlags := rif.linkFlags } := by
        unfold routePassStep
        rw [hn, h]
      have hlook : lookupAssoc (routePassStep interfaces rif) name =
          some { e with linkFlags := rif.linkFlags } := by
        rw [hstep, hn]
        exact lookupAssoc_insertAssoc_self _ _ _
      rcases ih (routePassStep interfaces rif) name _ hlook with
        ⟨e', he', hkind, hmode, hidx, hname⟩
      exact ⟨e', he', hkind, hmode, hidx, hname⟩
    · have hlook : lookupAssoc (routePassStep interfaces rif) name = some e := by
        rw [lookupAssoc_routePassStep_ne _ _ _ hn]
        exact h
      exact ih _ name e hlook

/-- A name not present after the wireless pass can only gain an entry with no
mode status in the route pass. -/
theorem routePass_new_entries (routeInterfaces : List RouteFlagsInterface) :
    ∀ (interfaces : List (String × NetlinkInterface)) (name : String),
      lookupAssoc interfaces name = none →
      ∀ e', lookupAssoc (routePass interfaces routeInterfaces) name = some e' →
        e'.modeStatus = none := by
  induction routeInterfaces with
  | nil =>
    intro interfaces name h e' h'
    rw [routePass, List.foldl_nil, h] at h'
    cases h'
  | cons rif tl ih =>
    intro interfaces name h e' h'
    rw [routePass, List.foldl_cons] at h'
    by_cases hn : rif.name = name
    · have hstep : routePassStep interfaces rif =
          insertAssoc interfaces rif.name
            { index := rif.index, name := rif.name, kind := rif.kind,
              linkFlags := rif.linkFlags, modeStatus := none } := by
        unfold routePassStep
        rw [hn, h]
      have hlook : lookupAssoc (routePassStep interfaces rif) name =
          some { index := rif.index, name := rif.name, kind := rif.kind,
                 linkFlags := rif.linkFlags, modeStatus := none } := by
        rw [hstep, hn]
        exact lookupAssoc_insertAssoc_self _ _ _
      rcases routePass_preserves tl (routePassStep interfaces rif) name _ hlook with
        ⟨e'', he'', _, hmode, _, _⟩
      rw [routePass] at he''
      rw [he''] at h'
      injection h' with h'
      rw [← h']
      exact hmode
    · have hlook : lookupAssoc (routePassStep interfaces rif) name = none := by
        rw [lookupAssoc_routePassStep_ne _ _ _ hn]
        exact h
      exact ih _ name hlook e' h'

/-- The route pass leaves entries alone whose key is the name of no route
record. -/
theorem routePass_untouched (routeInterfaces : List RouteFlagsInterface) :
    ∀ (interfaces : List (String × NetlinkInterface)) (name : String),
      name ∉ routeInterfaces.map RouteFlagsInterface.name →
      lookupAssoc (routePass interfaces routeInterfaces) name =
        lookupAssoc interfaces name := by
  induction routeInterfaces with
  | nil => exact fun interfaces name _ => rfl
  | cons rif tl ih =>
    intro interfaces name hname
    rw [List.map_cons, List.mem_cons] at hname
    push_neg at hname
    rw [routePass, List.foldl_cons]
    have h1 : lookupAssoc (tl.foldl routePassStep (routePassStep interfaces rif)) name =
        lookupAssoc (routePassStep interfaces rif) name := ih _ name hname.2
    rw [h1, lookupAssoc_routePassStep_ne _ _ _ (fun hEq => hname.1 hEq.symm)]

theorem lookupAssoc_eq_of_mem_of_nodup {α β : Type} [DecidableEq α]
    (m : List (α × β)) (k : α) (v : β)
    (hnodup : (m.map Prod.fst).Nodup) (hmem : (k, v) ∈ m) :
    lookupAssoc m k = some v := by
  induction m with
  | nil => cases hmem
  | cons p rest ih =>
    obtain ⟨k', v'⟩ := p
    rw [List.map_cons, List.nodup_cons] at hnodup
    rcases List.mem_cons.mp hmem with h1 | h1
    · injection h1 with hk hv
      rw [lookupAssoc, if_pos hk.symm]
      rw [hv]
    · by_cases hk : k' = k
      · exfalso
        apply hnodup.1
        subst hk
        exact List.mem_map.mpr ⟨(k', v), h1, rfl⟩
      · rw [lookupAssoc, if_neg hk]
        exact ih hnodup.2 h1

theorem keys_nodup_wirelessPass (deviceModes : List (Nat × List NetlinkInterfaceMode))
    (wiphyInterfaces : List WiphyInterface) :
    ∀ (init : List (String × NetlinkInterface)), (init.map Prod.fst).Nodup →
      ((wiphyInterfaces.foldl (wirelessPassStep deviceModes) init).map Prod.fst).Nodup := by
  induction wiphyInterfaces with
  | nil => exact fun init h => h
  | cons wi tl ih =>
    intro init h
    rw [List.foldl_cons]
    exact ih _ (keys_insertAssoc_nodup _ _ _ h)

theorem keys_nodup_routePassStep (interfaces : List (String × NetlinkInterface))
    (iface : RouteFlagsInterface) (h : (interfaces.map Prod.fst).Nodup) :
    ((routePassStep interfaces iface).map Prod.fst).Nodup := by
  unfold routePassStep
  cases lookupAssoc interfaces iface.name <;>
    exact keys_insertAssoc_nodup _ _ _ h

theorem keys_nodup_routePass (routeInterfaces : List RouteFlagsInterface) :
    ∀ (interfaces : List (String × NetlinkInterface)),
      (interfaces.map Prod.fst).Nodup →
      ((routePass interfaces routeInterfaces).map Prod.fst).Nodup := by
  induction routeInterfaces with
  | nil => exact fun interfaces h => h
  | cons rif tl ih =>
    intro interfaces h
    rw [routePass, List.foldl_cons]
    exact ih _ (keys_nodup_routePassStep _ _ h)

theorem names_eq_keys_wirelessPass (deviceModes : List (Nat × List NetlinkInterfaceMode))
    (wiphyInterfaces : List WiphyInterface) :
    ∀ p ∈ wirelessPass deviceModes wiphyInterfaces, p.2.name = p.1 := by
  intro p hp
  rcases mem_wirelessPass _ _ _ hp with ⟨wi, _, hp'⟩
  rw [hp']
  rfl

theorem names_eq_keys_routePass (routeInterfaces : List RouteFlagsInterface) :
    ∀ (interfaces : List (String × NetlinkInterface)),
      (∀ p ∈ interfaces, p.2.name = p.1) →
      ∀ p ∈ routePass interfaces routeInterfaces, p.2.name = p.1 := by
  induction routeInterfaces with
  | nil => exact fun interfaces h => h
  | cons rif tl ih =>
    intro interfaces h
    rw [routePass, List.foldl_cons]
    refine ih _ ?_
    intro p hp
    unfold routePassStep at hp
    cases hl : lookupAssoc interfaces rif.name with
    | some insertedIface =>
      rw [hl] at hp
      rcases mem_insertAssoc _ _ _ _ hp with h1 | h1
      · exact h p h1
      · rw [h1]
        have hmem := lookupAssoc_mem interfaces rif.name insertedIface hl
        exact h (rif.name, insertedIface) hmem
    | none =>
      rw [hl] at hp
      rcases mem_insertAssoc _ _ _ _ hp with h1 | h1
      · exact h p h1
      · rw [h1]

/-- C2: every merged snapshot has pairwise distinct interface names. -/
theorem c2_getInterfaces_names_unique :
    ∀ (deviceMsgs ifaceMsgs : List Nl80211Message)
      (routeInterfaces : List RouteFlagsInterface),
      ((getInterfaces deviceMsgs ifaceMsgs routeInterfaces).map
          NetlinkInterface.name).Nodup := by
  intro deviceMsgs ifaceMsgs routeInterfaces
  rw [getInterfaces, List.map_map]
  have hkeys : ((routePass
      (wirelessPass (wiphyDeviceModes (getWiphyDevices deviceMsgs))
        (getWiphyInterfaces ifaceMsgs)) routeInterfaces).map Prod.fst).Nodup :=
    keys_nodup_routePass _ _
      (keys_nodup_wirelessPass _ _ [] (by simp))
  have hnames := names_eq_keys_routePass routeInterfaces _
    (names_eq_keys_wirelessPass (wiphyDeviceModes (getWiphyDevices deviceMsgs))
      (getWiphyInterfaces ifaceMsgs))
  have hmap : (routePass
      (wirelessPass (wiphyDeviceModes (getWiphyDevices deviceMsgs))
        (getWiphyInterfaces ifaceMsgs)) routeInterfaces).map
          (NetlinkInterface.name ∘ Prod.snd) =
      (routePass
        (wirelessPass (wiphyDeviceModes (getWiphyDevices deviceMsgs))
          (getWiphyInterfaces ifaceMsgs)) routeInterfaces).map Prod.fst := by
    refine List.map_congr_left ?_
    intro p hp
    exact hnames p hp
  rw [hmap]
  exact hkeys

/-- C1: wireless identity wins in the merged view.  Every name present after
the wireless pass keeps kind Wireless and its wireless mode status through
the route pass (only link state is complemented), and every name the route
pass adds carries no mode status. -/
theorem c1_wireless_identity_wins :
    ∀ (deviceModes : List (Nat × List NetlinkInterfaceMode))
      (wiphyInterfaces : List WiphyInterface)
      (routeInterfaces : List RouteFlagsInterface) (name : String),
      (∀ e, lookupAssoc (wirelessPass deviceModes wiphyInterfaces) name = some e →
        e.kind = RouteInterfaceKind.wireless ∧
        ∃ e', lookupAssoc
            (routePass (wirelessPass deviceModes wiphyInterfaces) routeInterfaces)
            name = some e' ∧
          e'.kind = RouteInterfaceKind.wireless ∧
          e'.modeStatus = e.modeStatus ∧ e'.index = e.index) ∧
      (lookupAssoc (wirelessPass deviceModes wiphyInterfaces) name = none →
        ∀ e', lookupAssoc
            (routePass (wirelessPass deviceModes wiphyInterfaces) routeInterfaces)
            name = some e' →
          e'.modeStatus = none) := by
  intro deviceModes wiphyInterfaces routeInterfaces name
  constructor
  · intro e he
    have hkind : e.kind = RouteInterfaceKind.wireless := by
      rcases mem_wirelessPass _ _ _ (lookupAssoc_mem _ _ _ he) with ⟨wi, _, hp⟩
      rw [Prod.mk.injEq] at hp
      rw [hp.2]
      rfl
    rcases routePass_preserves routeInterfaces _ name e he with
      ⟨e', he', hk, hm, hi, _⟩
    refine ⟨hkind, e', he', ?_, hm, hi⟩
    rw [hk, hkind]
  · intro h e' he'
    exact routePass_new_entries routeInterfaces _ name h e' he'

/-- Witness for c1_wireless_identity_wins: wlan0 is inserted by the wireless
pass, a route record for wlan0 only complements it (kind and mode status
survive), and eth0 arrives only through the route pass with no mode
status. -/
theorem c1_wireless_identity_wins_witness :
    (wirelessEntry [(7, [NetlinkInterfaceMode.station])]
          ⟨1, 7, "wlan0", Nl80211InterfaceType.station⟩).kind =
        RouteInterfaceKind.wireless ∧
    (∃ e', lookupAssoc
        (routePass
          (wirelessPass [(7, [NetlinkInterfaceMode.station])]
            [⟨1, 7, "wlan0", Nl80211InterfaceType.station⟩])
          [⟨1, "wlan0", RouteInterfaceKind.ethernet, 1⟩,
           ⟨2, "eth0", RouteInterfaceKind.ethernet, 1⟩])
        "wlan0" = some e' ∧
      e'.kind = RouteInterfaceKind.wireless ∧
      e'.modeStatus = (wirelessEntry [(7, [NetlinkInterfaceMode.station])]
          ⟨1, 7, "wlan0", Nl80211InterfaceType.station⟩).modeStatus ∧
      e'.index = 1) ∧
    ∀ e', lookupAssoc
        (routePass
          (wirelessPass [(7, [NetlinkInterfaceMode.station])]
            [⟨1, 7, "wlan0", Nl80211InterfaceType.station⟩])
          [⟨1, "wlan0", RouteInterfaceKind.ethernet, 1⟩,
           ⟨2, "eth0", RouteInterfaceKind.ethernet, 1⟩])
        "eth0" = some e' →
      e'.modeStatus = none := by
  have hw := c1_wireless_identity_wins [(7, [NetlinkInterfaceMode.station])]
    [⟨1, 7, "wlan0", Nl80211InterfaceType.station⟩]
    [⟨1, "wlan0", RouteInterfaceKind.ethernet, 1⟩,
     ⟨2, "eth0", RouteInterfaceKind.ethernet, 1⟩]
    "wlan0"
  have he := c1_wireless_identity_wins [(7, [NetlinkInterfaceMode.station])]
    [⟨1, 7, "wlan0", Nl80211InterfaceType.station⟩]
    [⟨1, "wlan0", RouteInterfaceKind.ethernet, 1⟩,
     ⟨2, "eth0", RouteInterfaceKind.ethernet, 1⟩]
    "eth0"
  have h1 := hw.1 (wirelessEntry [(7, [NetlinkInterfaceMode.station])]
      ⟨1, 7, "wlan0", Nl80211InterfaceType.station⟩) (by decide)
  exact ⟨h1.1, h1.2, he.2 (by decide)⟩

/-- C10: the derived link state is strictly two valued: Up exactly when the
Up flag bit is set, Down in every other case, and an entry the route pass
never complemented still has link flags 0 and reports Down. -/
theorem c10_state_strictly_two_valued :
    ∀ (deviceMsgs ifaceMsgs : List Nl80211Message)
      (routeInterfaces : List RouteFlagsInterface) (e : NetlinkInterface),
      e ∈ getInterfaces deviceMsgs ifaceMsgs routeInterfaces →
      (e.state = LinkState.up ↔ e.linkFlags.testBit 0) ∧
      (e.state = LinkState.down ↔ ¬ e.linkFlags.testBit 0) ∧
      (e.name ∉ routeInterfaces.map RouteFlagsInterface.name →
        e.linkFlags = 0 ∧ e.state = LinkState.down) := by
  intro deviceMsgs ifaceMsgs routeInterfaces e he
  have hbit : (e.linkFlags &&& LinkFlagsUp = LinkFlagsUp) ↔ e.linkFlags.testBit 0 := by
    show (e.linkFlags &&& 1 = 1) ↔ e.linkFlags.testBit 0
    rw [Nat.and_one_is_mod, Nat.testBit_zero]
    constructor
    · intro h
      simp [h]
    · intro h
      simpa using h
  have hstate : e.state =
      (if e.linkFlags &&& LinkFlagsUp = LinkFlagsUp then LinkState.up else LinkState.down) := rfl
  refine ⟨?_, ?_, ?_⟩
  · rw [hstate]
    by_cases h : e.linkFlags &&& LinkFlagsUp = LinkFlagsUp
    · simp [h, hbit.mp h]
    · have hnb : ¬ e.linkFlags.testBit 0 := fun hb => h (hbit.mpr hb)
      simp [h, hnb]
  · rw [hstate]
    by_cases h : e.linkFlags &&& LinkFlagsUp = LinkFlagsUp
    · simp [h, hbit.mp h]
    · have hnb : ¬ e.linkFlags.testBit 0 := fun hb => h (hbit.mpr hb)
      simp [h, hnb]
  · intro hnot
    rw [getInterfaces] at he
    rcases List.mem_map.mp he with ⟨p, hpmem, hpe⟩
    have hname : p.2.name = p.1 :=
      names_eq_keys_routePass routeInterfaces _
        (names_eq_keys_wirelessPass _ _) p hpmem
    have hkeys : ((routePass
        (wirelessPass (wiphyDeviceModes (getWiphyDevices deviceMsgs))
          (getWiphyInterfaces ifaceMsgs)) routeInterfaces).map Prod.fst).Nodup :=
      keys_nodup_routePass _ _ (keys_nodup_wirelessPass _ _ [] (by simp))
    have hpair : (p.1, p.2) ∈ routePass
        (wirelessPass (wiphyDeviceModes (getWiphyDevices deviceMsgs))
          (getWiphyInterfaces ifaceMsgs)) routeInterfaces := by
      rw [Prod.mk.eta]
      exact hpmem
    have hlook := lookupAssoc_eq_of_mem_of_nodup _ _ _ hkeys hpair
    have hp1 : p.1 = e.name := by
      rw [← hpe]
      exact hname.symm
    rw [hp1, hpe] at hlook
    rw [routePass_untouched routeInterfaces _ e.name hnot] at hlook
    rcases mem_wirelessPass _ _ _ (lookupAssoc_mem _ _ _ hlook) with ⟨wi, _, hpair2⟩
    rw [Prod.mk.injEq] at hpair2
    have hflags : e.linkFlags = 0 := by
      rw [hpair2.2]
      rfl
    refine ⟨hflags, ?_⟩
    rw [hstate, hflags]
    decide

/-- Witness for c10_state_strictly_two_valued: a wireless-only interface in a
concrete merged snapshot has link flags 0 and reports Down. -/
theorem c10_state_strictly_two_valued_witness :
    (⟨1, "wlan0", RouteInterfaceKind.wireless, 0,
        some ⟨NetlinkInterfaceMode.station, []⟩⟩ : NetlinkInterface) ∈
      getInterfaces []
        [⟨[.ifIndex 1, .wiphy 7, .ifName "wlan0", .ifType .station]⟩] [] ∧
    NetlinkInterface.state
        ⟨1, "wlan0", RouteInterfaceKind.wireless, 0,
          some ⟨NetlinkInterfaceMode.station, []⟩⟩ = LinkState.down := by
  have hmem : (⟨1, "wlan0", RouteInterfaceKind.wireless, 0,
      some ⟨NetlinkInterfaceMode.station, []⟩⟩ : NetlinkInterface) ∈
      getInterfaces []
        [⟨[.ifIndex 1, .wiphy 7, .ifName "wlan0", .ifType .station]⟩] [] := by
    decide
  have h := c10_state_strictly_two_valued []
    [⟨[.ifIndex 1, .wiphy 7, .ifName "wlan0", .ifType .station]⟩] [] _ hmem
  exact ⟨hmem, (h.2.2 (by simp)).2⟩

/-- Counterexample to C7: for a wireless interface whose phy index 7 is
absent from the (empty) device map, the merged snapshot carries the entry
with modeStatus present (active mode and empty supported list), not
omitted. -/
theorem c7_counterexample_modeStatus_present :
    getInterfaces []
        [⟨[.ifIndex 1, .wiphy 7, .ifName "wlan0", .ifType .station]⟩] [] =
      [⟨1, "wlan0", RouteInterfaceKind.wireless, 0,
        some ⟨NetlinkInterfaceMode.station, []⟩⟩] ∧
    ∀ e ∈ getInterfaces []
        [⟨[.ifIndex 1, .wiphy 7, .ifName "wlan0", .ifType .station]⟩] [],
      e.modeStatus ≠ none := by
  exact ⟨by decide, by decide⟩

/-- C7 amended: a failed physical-device lookup never aborts the merge: the
wireless interface still appears with modeStatus present, its active mode
set and its supported list empty (the diagnostic case), and the entry
survives the route pass with that mode status. -/
theorem c7_amended_device_lookup_failure_soft :
    ∀ (deviceModes : List (Nat × List NetlinkInterfaceMode))
      (wiphyInterfaces : List WiphyInterface)
      (routeInterfaces : List RouteFlagsInterface) (name : String)
      (e : NetlinkInterface),
      lookupAssoc (wirelessPass deviceModes wiphyInterfaces) name = some e →
      ∃ wi ∈ wiphyInterfaces, wi.name = name ∧
        e.modeStatus = some
          { active := NetlinkInterfaceMode.ofInterfaceType wi.iftype
            supported := (lookupAssoc deviceModes wi.phyIndex).getD [] } ∧
        (lookupAssoc deviceModes wi.phyIndex = none →
          e.modeStatus = some
            { active := NetlinkInterfaceMode.ofInterfaceType wi.iftype
              supported := [] }) ∧
        ∃ e', lookupAssoc
            (routePass (wirelessPass deviceModes wiphyInterfaces) routeInterfaces)
            name = some e' ∧ e'.modeStatus = e.modeStatus := by
  intro deviceModes wiphyInterfaces routeInterfaces name e he
  rcases mem_wirelessPass _ _ _ (lookupAssoc_mem _ _ _ he) with ⟨wi, hwi, hpair⟩
  rw [Prod.mk.injEq] at hpair
  refine ⟨wi, hwi, hpair.1.symm, ?_, ?_, ?_⟩
  · rw [hpair.2]
    rfl
  · intro hnone
    rw [hpair.2]
    simp [wirelessEntry, hnone]
  · rcases routePass_preserves routeInterfaces _ name e he with ⟨e', he', _, hm, _, _⟩
    exact ⟨e', he', hm⟩

/-- Witness for c7_amended_device_lookup_failure_soft: wlan0 with phy index 7
and an empty device map still appears with active Station and empty
supported list. -/
theorem c7_amended_device_lookup_failure_soft_witness :
    ∃ wi ∈ [(⟨1, 7, "wlan0", Nl80211InterfaceType.station⟩ : WiphyInterface)],
      wi.name = "wlan0" ∧
      (wirelessEntry [] ⟨1, 7, "wlan0", Nl80211InterfaceType.station⟩).modeStatus =
        some { active := NetlinkInterfaceMode.ofInterfaceType wi.iftype
               supported := (lookupAssoc [] wi.phyIndex).getD [] } ∧
      (lookupAssoc ([] : List (Nat × List NetlinkInterfaceMode)) wi.phyIndex = none →
        (wirelessEntry [] ⟨1, 7, "wlan0", Nl80211InterfaceType.station⟩).modeStatus =
          some { active := NetlinkInterfaceMode.ofInterfaceType wi.iftype
                 supported := [] }) ∧
      ∃ e', lookupAssoc
          (routePass (wirelessPass [] [⟨1, 7, "wlan0", Nl80211InterfaceType.station⟩]) [])
          "wlan0" = some e' ∧
        e'.modeStatus =
          (wirelessEntry [] ⟨1, 7, "wlan0", Nl80211InterfaceType.station⟩).modeStatus := by
  exact c7_amended_device_lookup_failure_soft []
    [⟨1, 7, "wlan0", Nl80211InterfaceType.station⟩] [] "wlan0"
    (wirelessEntry [] ⟨1, 7, "wlan0", Nl80211InterfaceType.station⟩) (by decide)

/-- Lookup after folding the device stream equals the field-by-field fold of
that phy index's contributions. -/
theorem lookupAssoc_foldl_wiphyDevicesStep :
    ∀ (msgs : List Nl80211Message) (init : List (Nat × WiphyDevice)) (phyIndex : Nat),
      lookupAssoc (msgs.foldl wiphyDevicesStep init) phyIndex =
        (deviceContributions msgs phyIndex).foldl
          (fun dev c => some (applyContribution phyIndex dev c))
          (lookupAssoc init phyIndex) := by
  intro msgs
  induction msgs with
  | nil => exact fun init phyIndex => rfl
  | cons msg tl ih =>
    intro init phyIndex
    rw [List.foldl_cons]
    rcases hf : wiphyDeviceFields msg with ⟨op, nm, md⟩
    cases op with
    | none =>
      have hstep : wiphyDevicesStep init msg = init := by
        unfold wiphyDevicesStep
        rw [hf]
      have hcontrib : deviceContributions (msg :: tl) phyIndex =
          deviceContributions tl phyIndex := by
        unfold deviceContributions
        rw [List.filterMap_cons]
        simp [hf]
      rw [hstep, hcontrib]
      exact ih init phyIndex
    | some p =>
      have hstep : wiphyDevicesStep init msg =
          insertAssoc init p (applyContribution p (lookupAssoc init p) (nm, md)) := by
        unfold wiphyDevicesStep
        rw [hf]
        rfl
      by_cases hp : p = phyIndex
      · subst hp
        have hcontrib : deviceContributions (msg :: tl) p =
            (nm, md) :: deviceContributions tl p := by
          unfold deviceContributions
          rw [List.filterMap_cons]
          simp [hf]
        rw [hstep, ih, lookupAssoc_insertAssoc_self, hcontrib, List.foldl_cons]
      · have hcontrib : deviceContributions (msg :: tl) phyIndex =
            deviceContributions tl phyIndex := by
          unfold deviceContributions
          rw [List.filterMap_cons]
          simp [hf, hp]
        rw [hstep, ih, lookupAssoc_insertAssoc_ne _ _ _ _ (fun hEq => hp hEq.symm),
          hcontrib]

/-- C8: when one message contributes the supported modes of a phy index and
a later message for the same phy index contributes only the name, the
resulting device carries both: the earlier modes and the later name. -/
theorem c8_getWiphyDevices_field_merge :
    ∀ (msgs : List Nl80211Message) (phyIndex : Nat) (firstName : Option String)
      (modes : List Nl80211IfMode) (laterName : String),
      deviceContributions msgs phyIndex =
        [(firstName, some modes), (some laterName, none)] →
      lookupAssoc (getWiphyDevicesMap msgs) phyIndex =
        some ⟨phyIndex, laterName, modes⟩ ∧
      (⟨phyIndex, laterName, modes⟩ : WiphyDevice) ∈ getWiphyDevices msgs := by
  intro msgs phyIndex firstName modes laterName h
  have hl : lookupAssoc (getWiphyDevicesMap msgs) phyIndex =
      some ⟨phyIndex, laterName, modes⟩ := by
    rw [show getWiphyDevicesMap msgs = msgs.foldl wiphyDevicesStep [] from rfl,
      lookupAssoc_foldl_wiphyDevicesStep msgs [] phyIndex, h]
    cases firstName <;> rfl
  refine ⟨hl, ?_⟩
  exact List.mem_map.mpr
    ⟨(phyIndex, ⟨phyIndex, laterName, modes⟩), lookupAssoc_mem _ _ _ hl, rfl⟩

/-- Witness for c8_getWiphyDevices_field_merge: phy 0 gets its supported
modes from the first message and its name phy0 from the second; the merged
device carries both. -/
theorem c8_getWiphyDevices_field_merge_witness :
    lookupAssoc
        (getWiphyDevicesMap
          [⟨[.wiphy 0, .supportedIftypes [.station, .monitor, .ap]]⟩,
           ⟨[.wiphy 0, .wiphyName "phy0"]⟩]) 0 =
      some ⟨0, "phy0", [.station, .monitor, .ap]⟩ ∧
    (⟨0, "phy0", [.station, .monitor, .ap]⟩ : WiphyDevice) ∈
      getWiphyDevices
        [⟨[.wiphy 0, .supportedIftypes [.station, .monitor, .ap]]⟩,
         ⟨[.wiphy 0, .wiphyName "phy0"]⟩] := by
  exact c8_getWiphyDevices_field_merge
    [⟨[.wiphy 0, .supportedIftypes [.station, .monitor, .ap]]⟩,
     ⟨[.wiphy 0, .wiphyName "phy0"]⟩]
    0 none [.station, .monitor, .ap] "phy0" (by decide)

end Wipi
